import Mathlib

/-!
Shallow embedding of polars_sqlserver_ext/_bulk_insert.py.

The module bulk-loads a Polars DataFrame into SQL Server via pytds.  We embed:
  * _prepare_value  — the per-cell value converter,
  * _prepare_batch  — the batch builder draining the shared row iterator,
  * the pre-load phase of polars_bulk_insert (validation, existence check,
    DDL/DML per if_table_exists policy, metadata fetch), as an event trace,
  * the streaming scheduler loop (futures FIFO, prefetch depth 2), and
  * an interleaving model of the two concurrently in-flight batch-build
    tasks that share the single row iterator.

Python scalars are modelled by the inductive PyVal.  Machine-level caveats
that no theorem below depends on: Python division value / 1_000_000_000 is
binary floating point, modelled here as the exact rational quotient; the
result of Decimal applied to str of a float is modelled as the exact value.
-/

namespace PolarsSqlServer

/-- A Python scalar value as it appears in a DataFrame cell or a prepared
batch.  The datetime constructor is a naive (no timezone offset) UTC
timestamp carrying its distance from the Unix epoch in seconds. -/
inductive PyVal where
  | none
  | int (n : Int)
  | bool (b : Bool)
  | float (q : ℚ)
  | dec (q : ℚ)
  | datetime (epochSeconds : ℚ)
  | str (s : String)
deriving DecidableEq

/-- A Python exception, tagged by its class. -/
inductive PyError where
  | valueError (msg : String)
  | runtimeError (msg : String)
  | attributeError (msg : String)
  | typeError (msg : String)
deriving DecidableEq

/-- Destination column metadata as exposed by pytds cursor.columns:
only the wire-type name (col.type.name) is consulted by the converter. -/
structure ColInfo where
  typeName : String
deriving DecidableEq

/-- One source row as yielded by df.iter_rows with named fields: an ordered
list of (column name, value) pairs. -/
abbrev Row := List (String × PyVal)

/-- The sql_columns mapping: lower-cased column name to descriptor. -/
abbrev SqlColumns := List (String × ColInfo)

/-- Python truthiness of a PyVal, used by the bit branch of _prepare_value. -/
def truthy : PyVal → Bool
  | .none => false
  | .int n => n != 0
  | .bool b => b
  | .float q => q != 0
  | .dec q => q != 0
  | .datetime _ => true
  | .str s => s != ""

/-- Decimal applied to str of the value, for the decimaln/numericn branch of
_prepare_value.  Numeric inputs become exact decimals; non-numeric strings
make the Decimal constructor raise. -/
def decimalOfStr : PyVal → Except PyError PyVal
  | .int n => .ok (.dec (n : ℚ))
  | .float q => .ok (.dec q)
  | _ => .error (.valueError "decimal InvalidOperation")

/-- datetime.datetime.utcfromtimestamp: the naive UTC calendar timestamp that
lies the given number of seconds after the Unix epoch, with no timezone
offset applied. -/
def utcfromtimestamp (s : ℚ) : PyVal :=
  .datetime s

/-- The five wire-type names treated as temporal by _prepare_value. -/
def temporalTypeNames : List String :=
  ["datetime", "datetime2", "smalldatetime", "date", "time"]

/-- _prepare_value(value, col_info).  Mirrors the source line by line:
a None value returns None before col_info is touched; otherwise the first
attribute access col_info.type.name raises AttributeError when col_info is
None (the dictionary get returned no descriptor); then the bit, the
decimaln/numericn and the temporal branches, and finally pass-through. -/
def prepareValue (value : PyVal) (colInfo : Option ColInfo) : Except PyError PyVal :=
  match value with
  | .none => .ok .none
  | v =>
    match colInfo with
    | Option.none => .error (.attributeError "NoneType object has no attribute type")
    | Option.some ci =>
      if ci.typeName = "bit" then
        .ok (.int (if truthy v then 1 else 0))
      else if ci.typeName = "decimaln" ∨ ci.typeName = "numericn" then
        match v with
        | .dec q => .ok (.dec q)
        | w => decimalOfStr w
      else if ci.typeName ∈ temporalTypeNames then
        match v with
        | .datetime s => .ok (.datetime s)
        | .int n => .ok (utcfromtimestamp ((n : ℚ) / 1000000000))
        | .bool b => .ok (utcfromtimestamp ((if b then (1 : ℚ) else 0) / 1000000000))
        | .float q => .ok (utcfromtimestamp (q / 1000000000))
        | .dec q => .ok (utcfromtimestamp (q / 1000000000))
        | _ => .error (.typeError "unsupported operand types for division")
      else
        .ok v

/-- The str.lower() method: lower-case every character. -/
def pyLower (s : String) : String :=
  String.mk (s.data.map Char.toLower)

/-- Line 79 of the source: sql_columns is the dictionary keyed by the
lower-cased destination column names. -/
def buildSqlColumns (cols : List (String × ColInfo)) : SqlColumns :=
  cols.map (fun p => (pyLower p.1, p.2))

/-- sql_columns.get(colname.lower()): case-insensitive descriptor lookup,
Option.none when the field has no matching destination column. -/
def lookupCol (cols : SqlColumns) (name : String) : Option ColInfo :=
  (cols.find? (fun p => p.1 = pyLower name)).map Prod.snd

/-- The inner loop of _prepare_batch over one row: convert each field in
field order; the first raised conversion error propagates. -/
def prepareRow (cols : SqlColumns) (row : Row) : Except PyError (List PyVal) :=
  row.mapM (fun p => prepareValue p.2 (lookupCol cols p.1))

/-- _prepare_batch(rows_iter, batch_size, sql_columns) in the semantics in
which the task consumes its slice of the iterator without interference:
pulls up to batchSize rows, converts each, catches StopIteration (returning
the rows gathered so far); a conversion error propagates out of the task
after the consumed rows are gone from the iterator.  Returns the result of
the task together with the rows still left in the iterator. -/
def prepareBatch (cols : SqlColumns) : Nat → List Row →
    Except PyError (List (List PyVal)) × List Row
  | 0, rows => (.ok [], rows)
  | _ + 1, [] => (.ok [], [])
  | n + 1, r :: rows =>
    match prepareRow cols r with
    | .error e => (.error e, rows)
    | .ok pr =>
      match prepareBatch cols n rows with
      | (.error e, rest) => (.error e, rest)
      | (.ok b, rest) => (.ok (pr :: b), rest)

/-- A SQL statement passed to cursor.execute during the pre-load phase,
tagged by the line of polars_bulk_insert that issues it.  Table creation
carries only the table name: the generated column list (built by
map_polars_dtype_to_sql) is not consulted by any property below. -/
inductive Stmt where
  | selectObjectId (table : String)
  | dropTable (table : String)
  | createTable (table : String)
  | deleteFrom (table : String)
  | truncateTable (table : String)
  | dbccReseed (table : String)
  | selectTop0 (table : String)
deriving DecidableEq

/-- One interaction with the destination: a cursor.execute call or a
connection commit. -/
inductive Event where
  | exec (s : Stmt)
  | commit
deriving DecidableEq

/-- The arguments of polars_bulk_insert that the pre-load phase consults.
dfRows is the DataFrame content as a row list (df.is_empty is emptiness of
the row list). -/
structure LoadConfig where
  dfRows : List Row
  tableName : String
  schemaName : String
  batchSize : Nat
  ifTableExists : String
  resetIdentity : Bool
deriving DecidableEq

/-- full_table_name: schema-qualified unless the schema string is falsy
(empty). -/
def fullTableName (cfg : LoadConfig) : String :=
  if cfg.schemaName ≠ "" then cfg.schemaName ++ "." ++ cfg.tableName else cfg.tableName

/-- The admissible if_table_exists policies (line 27 of the source). -/
def validPolicies : List String :=
  ["append", "replace", "fail", "delete", "truncate"]

/-- The DDL/DML branch of Step 2 (lines 53 to 75): the events issued for the
given policy and table-existence outcome, after the fail policy has been
ruled out. -/
def ddlEvents (cfg : LoadConfig) (tableExists : Bool) : List Event :=
  if cfg.ifTableExists = "replace" ∧ tableExists = true then
    [.exec (.dropTable (fullTableName cfg)), .commit,
     .exec (.createTable (fullTableName cfg)), .commit]
  else if cfg.ifTableExists = "replace" ∧ tableExists = false then
    [.exec (.createTable (fullTableName cfg)), .commit]
  else if cfg.ifTableExists = "delete" ∧ tableExists = true then
    [.exec (.deleteFrom (fullTableName cfg)), .commit] ++
      (if cfg.resetIdentity then
        [.exec (.dbccReseed (fullTableName cfg)), .commit] else [])
  else if cfg.ifTableExists = "truncate" ∧ tableExists = true then
    [.exec (.truncateTable (fullTableName cfg)), .commit] ++
      (if cfg.resetIdentity then
        [.exec (.dbccReseed (fullTableName cfg)), .commit] else [])
  else []

/-- Lines 24 to 79 of polars_bulk_insert: validation, the OBJECT_ID
existence probe (whose fetched outcome is the tableExists parameter), the
policy-dependent DDL/DML with commits, and the SELECT TOP 0 metadata fetch.
Returns the events issued against the destination, and the exception raised
after them (Option.none when the pre-load phase completes and streaming is
reached). -/
def preLoad (cfg : LoadConfig) (tableExists : Bool) : List Event × Option PyError :=
  if cfg.dfRows = [] then
    ([], some (.valueError "DataFrame is empty, nothing to insert."))
  else if ¬ (cfg.ifTableExists ∈ validPolicies) then
    ([], some (.valueError ("Invalid if_table_exists " ++ cfg.ifTableExists)))
  else if cfg.resetIdentity = true ∧ ¬ (cfg.ifTableExists ∈ ["delete", "truncate"]) then
    ([], some (.valueError "reset_identity is only valid with delete or truncate"))
  else if cfg.ifTableExists = "fail" ∧ tableExists = true then
    ([.exec (.selectObjectId (fullTableName cfg))],
     some (.runtimeError ("Table " ++ fullTableName cfg ++ " already exists.")))
  else
    ([.exec (.selectObjectId (fullTableName cfg))] ++ ddlEvents cfg tableExists ++
      [.exec (.selectTop0 (fullTableName cfg))], Option.none)

/-- Events that the destination interface treats as statement execution or
commit, as opposed to the two read-only probes (the OBJECT_ID existence
check and the SELECT TOP 0 metadata fetch, consumed through fetch calls). -/
def isStatementOrCommit : Event → Bool
  | .commit => true
  | .exec (.selectObjectId _) => false
  | .exec (.selectTop0 _) => false
  | .exec _ => true

/-- Events that execute DDL or DML against the destination. -/
def isDdlOrDml : Event → Bool
  | .exec (.dropTable _) => true
  | .exec (.createTable _) => true
  | .exec (.deleteFrom _) => true
  | .exec (.truncateTable _) => true
  | .exec (.dbccReseed _) => true
  | _ => false

/-- Events that create a table. -/
def isCreate : Event → Bool
  | .exec (.createTable _) => true
  | _ => false

/-- Events that change the destination schema (create or drop a table). -/
def isSchemaChange : Event → Bool
  | .exec (.createTable _) => true
  | .exec (.dropTable _) => true
  | _ => false

instance {ε α : Type} [DecidableEq ε] [DecidableEq α] : DecidableEq (Except ε α) := fun x y =>
  match x, y with
  | .error e, .error f =>
    if h : e = f then isTrue (by rw [h]) else isFalse (by intro hh; cases hh; exact h rfl)
  | .error _, .ok _ => isFalse (by intro hh; cases hh)
  | .ok _, .error _ => isFalse (by intro hh; cases hh)
  | .ok a, .ok b =>
    if h : a = b then isTrue (by rw [h]) else isFalse (by intro hh; cases hh; exact h rfl)

/-- The mutable state of the Step 4 scheduler loop (lines 85 to 109), in the
semantics in which each submitted _prepare_batch task claims its slice of
the shared iterator without interference from the other in-flight task (the
interleaved semantics is modelled separately below; the properties proved
on this state hold under any interleaving because they depend only on the
futures-queue bookkeeping).  pending is what remains of rows_iter after the
slices of all submitted tasks; futures holds the results of the submitted
but not yet popped tasks, oldest first; delivered lists the batches handed
to cursor.copy_to so far. -/
structure StreamState where
  pending : List Row
  futures : List (Except PyError (List (List PyVal)))
  delivered : List (List (List PyVal))
deriving DecidableEq

/-- Lines 85 to 91: create the iterator and submit prefetch_batches = 2
initial _prepare_batch tasks. -/
def initStream (bs : Nat) (cols : SqlColumns) (rows : List Row) : StreamState :=
  let p1 := prepareBatch cols bs rows
  let p2 := prepareBatch cols bs p1.2
  { pending := p2.2, futures := [p1.1, p2.1], delivered := [] }

/-- Outcome of one iteration of the while-futures loop. -/
inductive StepResult where
  | next (s : StreamState)
  | raise (e : PyError)
  | exitLoop (s : StreamState)
deriving DecidableEq

/-- One iteration of the while-futures loop: if futures is empty the loop
exits; otherwise pop the oldest future, re-raise its exception if the task
failed (done_future.result), hand a non-empty batch to copy_to, and submit
a replacement task unconditionally — executor.submit never raises
StopIteration, so the except StopIteration handler on lines 108 to 109 is
dead code and a new future is always appended. -/
def streamStep (bs : Nat) (cols : SqlColumns) (s : StreamState) : StepResult :=
  match s.futures with
  | [] => .exitLoop s
  | f :: rest =>
    match f with
    | .error e => .raise e
    | .ok batch =>
      let delivered := if batch.isEmpty then s.delivered else s.delivered ++ [batch]
      let p := prepareBatch cols bs s.pending
      .next { pending := p.2, futures := rest ++ [p.1], delivered := delivered }

/-- How the streaming phase ends, seen from the caller.  The Bool in the
returned and raised outcomes records whether executor.shutdown ran before
control left polars_bulk_insert: the shutdown call on line 111 sits after
the loop with no try/finally, so an exception propagates without it, and
reaching it requires the loop to exit. -/
inductive StreamOutcome where
  | running (s : StreamState)
  | returned (s : StreamState) (shutdownRan : Bool)
  | raised (e : PyError) (shutdownRan : Bool)
deriving DecidableEq

/-- Run the scheduler loop for at most fuel iterations.  A raised task or
sink error leaves the function with shutdownRan = false; exiting the loop
reaches executor.shutdown(wait=True) and returns with shutdownRan = true. -/
def runStream (bs : Nat) (cols : SqlColumns) : Nat → StreamState → StreamOutcome
  | 0, s => .running s
  | fuel + 1, s =>
    match streamStep bs cols s with
    | .next s2 => runStream bs cols fuel s2
    | .raise e => .raised e false
    | .exitLoop s2 => .returned s2 true

/-- How a call of polars_bulk_insert ends: an exception before streaming
(with the pre-load events issued so far), or the streaming phase outcome
(with the complete pre-load trace).  sqlColumns stands for the descriptors
fetched by the SELECT TOP 0 metadata query. -/
inductive LoadResult where
  | preError (trace : List Event) (e : PyError)
  | streaming (trace : List Event) (out : StreamOutcome)
deriving DecidableEq

/-- polars_bulk_insert end to end: the pre-load phase, then — only when it
raised nothing — the scheduler loop. -/
def load (cfg : LoadConfig) (tableExists : Bool) (cols : SqlColumns)
    (fuel : Nat) : LoadResult :=
  match preLoad cfg tableExists with
  | (tr, some e) => .preError tr e
  | (tr, Option.none) =>
    .streaming tr
      (runStream cfg.batchSize cols fuel (initStream cfg.batchSize cols cfg.dfRows))

/-- One in-flight _prepare_batch task: the rows it has pulled from the
shared iterator so far, in pull order, and how many next calls its
for-range loop may still make. -/
structure InFlight where
  acc : List Row
  quota : Nat
deriving DecidableEq

/-- Pop-and-replace bookkeeping of the scheduler between two next calls:
while the oldest in-flight task has exhausted its quota, the loop pops its
future, delivers its batch, and submits a fresh replacement task with full
quota.  At most two closings are possible per step because exactly two
tasks are in flight (prefetch_batches = 2). -/
def closeCompleted (bs : Nat) (older newer : InFlight) (done : List (List Row)) :
    InFlight × InFlight × List (List Row) :=
  match older.quota with
  | _ + 1 => (older, newer, done)
  | 0 =>
    match newer.quota with
    | _ + 1 => (newer, { acc := [], quota := bs }, done ++ [older.acc])
    | 0 => ({ acc := [], quota := bs }, { acc := [], quota := bs },
            done ++ [older.acc, newer.acc])

/-- Interleaved execution of the scheduler with its two concurrently
in-flight _prepare_batch tasks sharing rows_iter.  Each call of next on the
iterator is taken as atomic; sched decides, pull by pull, whether the older
(true) or the newer (false) in-flight task performs it — every such
assignment is realizable by thread timing because both tasks run
concurrently on the four pool workers and nothing serializes their access
to the iterator.  A task whose quota is spent merely waits to be popped, so
the other task must pull; when rows run out every in-flight task ends its
loop through StopIteration with the rows it has gathered.  The returned
list holds each task result in task-submission order, which is delivery
order because the loop pops futures FIFO. -/
def raceRun (bs : Nat) : List Bool → List Row → InFlight → InFlight →
    List (List Row) → List (List Row)
  | _, [], older, newer, done => done ++ [older.acc, newer.acc]
  | sched, r :: rest, older, newer, done =>
    match closeCompleted bs older newer done with
    | (o, n, d) =>
      match o.quota with
      | 0 => d
      | oq + 1 =>
        if (match sched with | [] => true | b :: _ => b) || n.quota == 0 then
          raceRun bs sched.tail rest { acc := o.acc ++ [r], quota := oq } n d
        else
          raceRun bs sched.tail rest o
            { acc := n.acc ++ [r], quota := n.quota - 1 } d

/-- The batches that reach cursor.copy_to under the interleaving sched:
empty task results are skipped by the if-batch guard, and each pulled row
is converted by the task with _prepare_value (conversion is pure, so
converting at delivery time yields the same batches). -/
def raceDelivered (bs : Nat) (sched : List Bool) (rows : List Row)
    (cols : SqlColumns) : Except PyError (List (List (List PyVal))) :=
  ((raceRun bs sched rows { acc := [], quota := bs } { acc := [], quota := bs }
      []).filter (fun b => !b.isEmpty)).mapM (fun b => b.mapM (prepareRow cols))

/-! Concrete inputs used by the theorems below. -/

/-- A one-field row holding the given integer in column a. -/
def rowOfInt (i : Int) : Row := [("a", PyVal.int i)]

/-- A destination with a single generic (pass-through) column named A. -/
def demoCols : SqlColumns := buildSqlColumns [("A", { typeName := "int4" })]

/-- Four distinguishable source rows. -/
def rows4 : List Row := [rowOfInt 0, rowOfInt 1, rowOfInt 2, rowOfInt 3]

/-- Six distinguishable source rows. -/
def rows6 : List Row :=
  [rowOfInt 0, rowOfInt 1, rowOfInt 2, rowOfInt 3, rowOfInt 4, rowOfInt 5]

/-- A one-row source whose conversion succeeds. -/
def rowsC2 : List Row := [rowOfInt 1]

/-- A one-row source with a field that matches no destination column. -/
def rowsC4 : List Row := [[("b", PyVal.int 7)]]

/-- A valid append-policy configuration over the one-row source. -/
def cfgC2 : LoadConfig :=
  { dfRows := rowsC2, tableName := "t", schemaName := "dbo", batchSize := 1,
    ifTableExists := "append", resetIdentity := false }

/-- The same configuration over the unmatched-field source. -/
def cfgC4 : LoadConfig :=
  { dfRows := rowsC4, tableName := "t", schemaName := "dbo", batchSize := 1,
    ifTableExists := "append", resetIdentity := false }

/-- The scheduler state reached once the one-row source is exhausted: the
row was delivered, both in-flight futures hold empty batches, and every
further iteration pops an empty batch and submits another empty task. -/
def sFixC2 : StreamState :=
  { pending := [], futures := [.ok [], .ok []], delivered := [[[PyVal.int 1]]] }

/-- Helper for the termination analysis: the exhausted state is a fixpoint
of the loop, so no amount of further iterations leaves it. -/
theorem runStream_sFixC2 : ∀ n : Nat, runStream 1 demoCols n sFixC2 = .running sFixC2 := by
  intro n
  induction n with
  | zero => rfl
  | succ n ih => exact ih

/-- C1: the claim says the concatenation of all batches delivered to
cursor.copy_to equals the full row source in original order, independent of
which worker built each batch or finished first.  This fails: the two
prefetched _prepare_batch tasks pull from the one shared rows_iter with no
mutual exclusion, so under the realizable interleaving in which the two
tasks alternate next calls, a four-row source with batch_size 2 is
delivered as the batches [row0, row2] and [row1, row3] — no row is lost or
duplicated, but the concatenation is out of source order, while the
serialized conversion of the same source is [row0, row1, row2, row3]. -/
theorem C1_interleaving_reorders_delivery :
    raceDelivered 2 [true, false, true, true] rows4 demoCols =
      .ok [[[PyVal.int 0], [PyVal.int 2]], [[PyVal.int 1], [PyVal.int 3]]] ∧
    rows4.mapM (prepareRow demoCols) =
      .ok [[PyVal.int 0], [PyVal.int 1], [PyVal.int 2], [PyVal.int 3]] ∧
    [[PyVal.int 0], [PyVal.int 2]] ++ [[PyVal.int 1], [PyVal.int 3]] ≠
      [[PyVal.int 0], [PyVal.int 1], [PyVal.int 2], [PyVal.int 3]] := by
  exact ⟨rfl, rfl, by decide⟩

/-- C9: the claim says only the final delivered batch may be shorter than
batchSize (and gives the 12001-row scenario three batches of 5000, 5000 and
2001).  This fails under the same unsynchronized iterator sharing: with six
rows and batch_size 5, the alternating interleaving makes the source run
out while both in-flight tasks are mid-batch, so the sink receives two
batches of three rows each — the first delivered batch is shorter than
batchSize yet is not the final one (on the 12001-row scenario the same
effect can yield four batches instead of three). -/
theorem C9_interleaving_breaks_batch_sizes :
    raceDelivered 5 [true, false, true, false, true, false] rows6 demoCols =
      .ok [[[PyVal.int 0], [PyVal.int 2], [PyVal.int 4]],
           [[PyVal.int 1], [PyVal.int 3], [PyVal.int 5]]] ∧
    [[[PyVal.int 0], [PyVal.int 2], [PyVal.int 4]],
     [[PyVal.int 1], [PyVal.int 3], [PyVal.int 5]]].map List.length = [3, 3] ∧
    (3 : Nat) < 5 := by
  exact ⟨rfl, rfl, by decide⟩

/-- C2: the claim says the scheduler loop exits once a popped batch is
empty and no task is outstanding, and load returns.  This fails: the
except StopIteration handler around executor.submit can never fire
(executor.submit does not raise StopIteration — the iterator is exhausted
inside the worker, where _prepare_batch already catches it), so every
iteration of while futures pops one future and appends a replacement, the
futures list never empties, and the loop runs forever popping empty
batches.  Formally: from the exhausted one-row load, any number of further
iterations leaves the loop still running, and the call of load never
produces a returned outcome no matter the fuel. -/
theorem C2_scheduler_loop_never_terminates :
    (∀ fuel : Nat,
      runStream 1 demoCols (fuel + 1) (initStream 1 demoCols rowsC2) =
        .running sFixC2) ∧
    load cfgC2 false demoCols 7 =
      .streaming [.exec (.selectObjectId "dbo.t"), .exec (.selectTop0 "dbo.t")]
        (.running sFixC2) := by
  constructor
  · intro fuel
    exact runStream_sFixC2 fuel
  · rfl

/-- C3: the claim says a non-null value whose field name matches no
destination column descriptor is converted through a neutral pass-through
path and never fails.  This fails: sql_columns.get returns None for the
unmatched name, and _prepare_value immediately evaluates
col_info.type.name, raising AttributeError on the None descriptor, so
converting the row raises instead of passing the value through. -/
theorem C3_missing_descriptor_raises :
    lookupCol (buildSqlColumns [("Other", { typeName := "int4" })]) "Missing" =
      Option.none ∧
    prepareRow (buildSqlColumns [("Other", { typeName := "int4" })])
        [("Missing", PyVal.int 7)] =
      .error (.attributeError "NoneType object has no attribute type") := by
  exact ⟨rfl, rfl⟩

/-- C4: the claim says the worker pool is shut down (awaiting in-flight
tasks) on every exit path of the streaming phase, including error paths.
This fails: executor.shutdown(wait=True) sits after the while loop with no
try/finally, so when done_future.result() re-raises a batch-preparation
error the exception propagates out of polars_bulk_insert with the shutdown
never executed — witnessed by a load whose only row has a field matching no
destination column: the streaming phase ends raised with shutdownRan =
false. -/
theorem C4_error_path_skips_executor_shutdown :
    load cfgC4 false demoCols 3 =
      .streaming [.exec (.selectObjectId "dbo.t"), .exec (.selectTop0 "dbo.t")]
        (.raised (.attributeError "NoneType object has no attribute type") false) := by
  rfl

/-- C5: with existsPolicy truncate, resetIdentity true and the table
present, the statements executed against the destination before any batch
streaming are exactly TRUNCATE TABLE, commit, DBCC CHECKIDENT RESEED 0,
commit, in that order.  The two read-only probes around them — the
OBJECT_ID existence check and the SELECT TOP 0 metadata fetch, the
tableExists and getColumnDescriptors interface reads — are not statement
executions; preLoad runs in full before load starts the scheduler, so the
whole trace precedes streaming. -/
theorem C5_truncate_reset_statement_sequence (cfg : LoadConfig)
    (h1 : cfg.ifTableExists = "truncate") (h2 : cfg.resetIdentity = true)
    (h3 : cfg.dfRows ≠ []) :
    (preLoad cfg true).1.filter isStatementOrCommit =
      [.exec (.truncateTable (fullTableName cfg)), .commit,
       .exec (.dbccReseed (fullTableName cfg)), .commit] ∧
    (preLoad cfg true).2 = Option.none := by
  simp [preLoad, ddlEvents, validPolicies, h1, h2, h3, isStatementOrCommit]

/-- A concrete truncate-with-reset configuration for the C5 witness. -/
def cfgC5 : LoadConfig :=
  { dfRows := rowsC2, tableName := "t", schemaName := "dbo", batchSize := 5000,
    ifTableExists := "truncate", resetIdentity := true }

/-- Witness instantiating C5 at the concrete configuration cfgC5. -/
theorem C5_truncate_reset_statement_sequence_witness :
    (preLoad cfgC5 true).1.filter isStatementOrCommit =
      [.exec (.truncateTable (fullTableName cfgC5)), .commit,
       .exec (.dbccReseed (fullTableName cfgC5)), .commit] ∧
    (preLoad cfgC5 true).2 = Option.none :=
  C5_truncate_reset_statement_sequence cfgC5 rfl rfl (by decide)

/-- C6: an empty source, an unrecognized exists-policy string, or
resetIdentity paired with a policy other than delete or truncate makes
polars_bulk_insert raise ValueError with an empty destination trace: the
three validation checks on lines 24 to 36 run before the cursor executes
anything, so no statement and no other destination interaction happens. -/
theorem C6_invalid_config_raises_before_destination_io (cfg : LoadConfig)
    (te : Bool)
    (h : cfg.dfRows = [] ∨ ¬ (cfg.ifTableExists ∈ validPolicies) ∨
      (cfg.resetIdentity = true ∧ ¬ (cfg.ifTableExists ∈ ["delete", "truncate"]))) :
    ∃ msg, preLoad cfg te = ([], some (.valueError msg)) := by
  by_cases hrows : cfg.dfRows = []
  · exact ⟨"DataFrame is empty, nothing to insert.", by simp [preLoad, hrows]⟩
  · by_cases hpol : cfg.ifTableExists ∈ validPolicies
    · rcases h with h | h | h
      · exact absurd h hrows
      · exact absurd hpol h
      · exact ⟨"reset_identity is only valid with delete or truncate",
          by simp [preLoad, hrows, hpol, h.1, h.2]⟩
    · exact ⟨"Invalid if_table_exists " ++ cfg.ifTableExists,
        by simp [preLoad, hrows, hpol]⟩

/-- An empty-source configuration for the C6 witness. -/
def cfgC6 : LoadConfig :=
  { dfRows := [], tableName := "t", schemaName := "dbo", batchSize := 5000,
    ifTableExists := "append", resetIdentity := false }

/-- Witness instantiating C6 at an empty source. -/
theorem C6_invalid_config_raises_before_destination_io_witness :
    ∃ msg, preLoad cfgC6 true = ([], some (.valueError msg)) :=
  C6_invalid_config_raises_before_destination_io cfgC6 true (Or.inl rfl)

/-- C7: with the fail policy against an existing table, polars_bulk_insert
raises RuntimeError right after the existence probe; the trace holds only
that read-only probe, hence zero DDL or DML statements (no create, drop,
delete, truncate or reseed). -/
theorem C7_fail_policy_no_ddl (cfg : LoadConfig)
    (h1 : cfg.ifTableExists = "fail") (h2 : cfg.dfRows ≠ [])
    (h3 : cfg.resetIdentity = false) :
    preLoad cfg true =
      ([.exec (.selectObjectId (fullTableName cfg))],
       some (.runtimeError ("Table " ++ fullTableName cfg ++ " already exists."))) ∧
    (preLoad cfg true).1.filter isDdlOrDml = [] := by
  have hm : preLoad cfg true =
      ([.exec (.selectObjectId (fullTableName cfg))],
       some (.runtimeError ("Table " ++ fullTableName cfg ++ " already exists."))) := by
    simp [preLoad, validPolicies, h1, h2, h3]
  exact ⟨hm, by rw [hm]; rfl⟩

/-- A concrete fail-policy configuration for the C7 witness. -/
def cfgC7 : LoadConfig :=
  { dfRows := rowsC2, tableName := "t", schemaName := "dbo", batchSize := 5000,
    ifTableExists := "fail", resetIdentity := false }

/-- Witness instantiating C7 at the concrete configuration cfgC7. -/
theorem C7_fail_policy_no_ddl_witness :
    preLoad cfgC7 true =
      ([.exec (.selectObjectId (fullTableName cfgC7))],
       some (.runtimeError ("Table " ++ fullTableName cfgC7 ++ " already exists."))) ∧
    (preLoad cfgC7 true).1.filter isDdlOrDml = [] :=
  C7_fail_policy_no_ddl cfgC7 rfl (by decide) rfl

/-- C8: for a temporal destination column (datetime, datetime2,
smalldatetime, date or time), a value that is already a structured
timestamp passes through unchanged, and an integer count of nanoseconds
since the epoch is divided by 1e9 and handed to utcfromtimestamp, i.e.
interpreted as epoch-relative seconds of a naive UTC timestamp with no
timezone offset applied. -/
theorem C8_temporal_conversion (ci : ColInfo) (h : ci.typeName ∈ temporalTypeNames)
    (t : ℚ) (n : Int) :
    prepareValue (.datetime t) (some ci) = .ok (.datetime t) ∧
    prepareValue (.int n) (some ci) =
      .ok (utcfromtimestamp ((n : ℚ) / 1000000000)) := by
  obtain ⟨name⟩ := ci
  simp only [temporalTypeNames, List.mem_cons, List.not_mem_nil, or_false] at h
  rcases h with h | h | h | h | h <;> subst h <;> exact ⟨rfl, rfl⟩

/-- Witness instantiating C8 at the date column type, timestamp 5 and
1500000000000000000 nanoseconds. -/
theorem C8_temporal_conversion_witness :
    prepareValue (.datetime 5) (some { typeName := "date" }) = .ok (.datetime 5) ∧
    prepareValue (.int 1500000000000000000) (some { typeName := "date" }) =
      .ok (utcfromtimestamp (((1500000000000000000 : Int) : ℚ) / 1000000000)) :=
  C8_temporal_conversion { typeName := "date" } (by decide) 5 1500000000000000000

/-- C10: under the append, fail, delete and truncate policies the pre-load
phase never issues CREATE TABLE (creation happens only in the replace
branches), never changes the destination schema (no create and no drop),
and when the destination table is missing it issues no DDL or DML at all —
a missing table is never created. -/
theorem C10_no_create_outside_replace (cfg : LoadConfig) (te : Bool)
    (h : cfg.ifTableExists ∈ ["append", "fail", "delete", "truncate"]) :
    (preLoad cfg te).1.filter isCreate = [] ∧
    (preLoad cfg te).1.filter isSchemaChange = [] ∧
    (te = false → (preLoad cfg te).1.filter isDdlOrDml = []) := by
  simp only [List.mem_cons, List.not_mem_nil, or_false] at h
  rcases h with h | h | h | h <;>
    by_cases hrows : cfg.dfRows = [] <;>
    cases te <;>
    cases hri : cfg.resetIdentity <;>
    simp [preLoad, ddlEvents, validPolicies, h, hrows, hri,
      isCreate, isSchemaChange, isDdlOrDml]

/-- Witness instantiating C10 at the append policy with the table missing. -/
theorem C10_no_create_outside_replace_witness :
    (preLoad cfgC2 false).1.filter isCreate = [] ∧
    (preLoad cfgC2 false).1.filter isSchemaChange = [] ∧
    (false = false → (preLoad cfgC2 false).1.filter isDdlOrDml = []) :=
  C10_no_create_outside_replace cfgC2 false (by decide)

end PolarsSqlServer
